import Mathlib

/-!
Verification of the Yaqith multi-agent safety system (fusion orchestrator and
session audit store).  The FastAPI entry points in `main.py` are embedded as
pure Lean functions; the fusion engine, modality dispatcher and repository
live in modules that are not part of the visible source, so they are modelled
from the specification (each such definition says so in its doc comment).
Confidences and risk scores are modelled as rationals.
-/

/-- Unified per-modality classifier result (spec §4.1):
`{triggered : bool, confidence : float in [0,1], reason : string}`. -/
structure ModalityResult where
  triggered : Bool
  confidence : ℚ
  reason : String
deriving Repr, DecidableEq

/-- Raw text-classifier output as the orchestrator sees it: a dictionary with
optional keys `is_fraud`, `confidence`, `reason` (main.py lines 123-137). -/
structure TextResult where
  is_fraud : Option Bool
  confidence : Option ℚ
  reason : Option String
deriving Repr, DecidableEq

/-- Raw logo-classifier output: optional keys `is_suspicious`, `confidence`,
`reason` (main.py lines 172-186). -/
structure LogoResult where
  is_suspicious : Option Bool
  confidence : Option ℚ
  reason : Option String
deriving Repr, DecidableEq

/-- Raw URL-classifier output: optional keys `safe`, `confidence`, `reason`
(main.py lines 216-230). -/
structure UrlResult where
  safe : Option Bool
  confidence : Option ℚ
  reason : Option String
deriving Repr, DecidableEq

/-- Truthiness of `dict.get("is_fraud")`-style access on an optional boolean
key: truthy exactly when the key is present and holds `true`. -/
def optTruthy (o : Option Bool) : Bool :=
  o = some true

/-- Modelled from the spec (§9 adapter boundary, missing `app/graph` module):
the native text-adapter flag `is_fraud` is mapped to `triggered`. -/
def TextResult.toModality (r : TextResult) : ModalityResult :=
  ⟨optTruthy r.is_fraud, r.confidence.getD 0, r.reason.getD ""⟩

/-- Modelled from the spec (§9 adapter boundary, missing `app/graph` module):
the native logo-adapter flag `is_suspicious` is mapped to `triggered`. -/
def LogoResult.toModality (r : LogoResult) : ModalityResult :=
  ⟨optTruthy r.is_suspicious, r.confidence.getD 0, r.reason.getD ""⟩

/-- Modelled from the spec (§9 adapter boundary, missing `app/graph` module):
the native url-adapter flag `safe` is negated into `triggered`. -/
def UrlResult.toModality (r : UrlResult) : ModalityResult :=
  ⟨!optTruthy r.safe, r.confidence.getD 0, r.reason.getD ""⟩

/-- Clamp a confidence into `[0,1]` (spec §4.3 edge cases). -/
def clamp01 (q : ℚ) : ℚ :=
  max 0 (min 1 q)

/-- Noisy-OR contribution of one modality (spec §4.3 step 2):
`c_i = triggered_i ? confidence_i : 0`, confidence clamped. -/
def contribution (m : ModalityResult) : ℚ :=
  if m.triggered then clamp01 m.confidence else 0

/-- The mapping produced by the dispatcher, from modality to result, 0..3 entries
(spec §4.2 output / §4.3 input). -/
structure FusionInput where
  text : Option ModalityResult
  logo : Option ModalityResult
  url : Option ModalityResult
deriving Repr, DecidableEq

/-- Present modalities in the fixed priority order text, logo, url
(spec §4.3 step 4). -/
def FusionInput.toList (inp : FusionInput) : List ModalityResult :=
  inp.text.toList ++ inp.logo.toList ++ inp.url.toList

/-- Output of the fusion engine (spec §4.3). -/
structure FusionOutput where
  risk_score : ℚ
  decision : String
  explanation : String
deriving Repr, DecidableEq

/-- Noisy-OR combination over the present modalities (spec §4.3 step 2):
`risk = 1 - prod (1 - c_i)`. -/
def riskOf (ms : List ModalityResult) : ℚ :=
  1 - (ms.map (fun m => 1 - contribution m)).prod

/-- Fixed decision thresholds (spec §4.3 step 3). -/
def decisionOf (r : ℚ) : String :=
  if r < 3/10 then "safe"
  else if r < 7/10 then "suspicious"
  else "dangerous"

/-- Deterministic explanation in fixed modality priority order
(spec §4.3 step 4). -/
def explanationOf (ms : List ModalityResult) : String :=
  let reasons := (ms.filter (·.triggered)).map (·.reason)
  if reasons.isEmpty then
    "No suspicious indicators detected across analyzed modalities."
  else String.intercalate " " reasons

/-- Modelled from the spec: the Fusion Engine (§4.3; the `app/graph` module is
not part of the visible source).  Empty mapping gives `(0, unknown)`;
otherwise noisy-OR risk, thresholds 0.3 and 0.7, and an explanation listing
the reasons of triggered modalities in priority order. -/
def fuse (inp : FusionInput) : FusionOutput :=
  let ms := inp.toList
  if ms.isEmpty then
    ⟨0, "unknown", "No input provided for analysis."⟩
  else
    ⟨riskOf ms, decisionOf (riskOf ms), explanationOf ms⟩

/-- One per-modality adapter set, as loaded at process start.  An adapter is a
function from the input reference to an optional raw result; `none` models
`ClassifierUnavailable` / no result (spec §4.1-4.2). -/
structure Adapters where
  textA : String → Option TextResult
  logoA : String → Option LogoResult
  urlA : String → Option UrlResult

/-- The raw outputs collected by the dispatcher, keyed like the Python result
dictionary (`text_result`, `logo_result`, `url_result`). -/
structure Results where
  text_result : Option TextResult
  logo_result : Option LogoResult
  url_result : Option UrlResult
deriving Repr

/-- Modelled from the spec (§4.2 Modality Dispatcher, missing `app/graph`
module): invoke the adapter for each present input; absent inputs and
unavailable adapters yield missing keys. -/
def dispatch (ad : Adapters) (text url image : Option String) : Results :=
  ⟨text.bind ad.textA, image.bind ad.logoA, url.bind ad.urlA⟩

/-- Map the raw dispatcher results through the adapter boundary into the
unified fusion-engine mapping. -/
def Results.toFusion (r : Results) : FusionInput :=
  ⟨r.text_result.map TextResult.toModality,
   r.logo_result.map LogoResult.toModality,
   r.url_result.map UrlResult.toModality⟩

/-- Modelled from the spec: `workflow.analyze_sync` (missing `app/graph`
module) — Dispatcher fan-out then Fusion Engine fan-in. -/
def analyze_sync (ad : Adapters) (text url image : Option String) :
    Results × FusionOutput :=
  let rs := dispatch ad text url image
  (rs, fuse rs.toFusion)

/-- A stored ScanRecord (spec §3): modality, owning session, input reference. -/
structure ScanRecord where
  modality : String
  session_id : String
  input_ref : String
deriving Repr, DecidableEq

/-- A stored PhishingAttempt (spec §3): owning session, source modality,
content summary, reason, confidence. -/
structure PhishingAttempt where
  session_id : String
  source : String
  content : String
  reason : String
  confidence : ℚ
deriving Repr, DecidableEq

/-- A stored ChatTurn (spec §3). -/
structure ChatTurn where
  session_id : String
  user_message : String
  bot_response : String
deriving Repr, DecidableEq

/-- The session & audit store.  Lists hold the most recent record first.
`storageUp` models reachability of the persistence layer. -/
structure Store where
  sessions : List String
  scans : List ScanRecord
  attempts : List PhishingAttempt
  chats : List ChatTurn
  storageUp : Bool
deriving Repr, DecidableEq

/-- Errors of the store contract (spec §7 taxonomy). -/
inductive RepoError where
  | invalidIdentity
  | unknownSession
  | storageUnavailable
deriving Repr, DecidableEq

/-- Printable detail for a repository error, used for the HTTP 500 detail. -/
def RepoError.msg : RepoError → String
  | .invalidIdentity => "InvalidIdentity"
  | .unknownSession => "UnknownSession"
  | .storageUnavailable => "StorageUnavailable"

/-- Modelled from the spec: `ensure_session` (§4.4; `app/db/repository` is not
part of the visible source).  Fails with `InvalidIdentity` for an empty id and
leaves the store untouched; otherwise idempotent upsert. -/
def create_or_update_session (id : String) (st : Store) : Except RepoError Store :=
  if id = "" then .error .invalidIdentity
  else .ok { st with sessions := if id ∈ st.sessions then st.sessions else id :: st.sessions }

/-- Modelled from the spec: `record_scan` for a text scan (§4.4, missing
repository module).  Fails with `StorageUnavailable` on an outage. -/
def save_text_scan (sid text : String) (st : Store) : Except RepoError Store :=
  if st.storageUp then .ok { st with scans := ⟨"text", sid, text⟩ :: st.scans }
  else .error .storageUnavailable

/-- Modelled from the spec: `record_scan` for a logo scan (§4.4, missing
repository module). -/
def save_logo_scan (sid fname : String) (st : Store) : Except RepoError Store :=
  if st.storageUp then .ok { st with scans := ⟨"logo", sid, fname⟩ :: st.scans }
  else .error .storageUnavailable

/-- Modelled from the spec: `record_scan` for a url scan (§4.4, missing
repository module). -/
def save_url_scan (sid url : String) (st : Store) : Except RepoError Store :=
  if st.storageUp then .ok { st with scans := ⟨"url", sid, url⟩ :: st.scans }
  else .error .storageUnavailable

/-- Modelled from the spec: `record_phishing_attempt` (§4.4, missing
repository module); appends, never deduplicates. -/
def save_phishing_attempt (sid source content reason : String) (conf : ℚ)
    (st : Store) : Except RepoError Store :=
  if st.storageUp then
    .ok { st with attempts := ⟨sid, source, content, reason, conf⟩ :: st.attempts }
  else .error .storageUnavailable

/-- Modelled from the spec: `record_chat_turn` (§4.4, missing repository
module). -/
def save_message (sid userMsg botMsg : String) (st : Store) : Except RepoError Store :=
  if st.storageUp then .ok { st with chats := ⟨sid, userMsg, botMsg⟩ :: st.chats }
  else .error .storageUnavailable

/-- Modelled from the spec: `query_chat_history` (§4.4, missing repository
module): up to `limit` turns, most recent first, optionally filtered. -/
def repo_get_chat_history (sid : Option String) (limit : ℕ) (st : Store) :
    List ChatTurn :=
  (match sid with
    | none => st.chats
    | some s => st.chats.filter (·.session_id = s)).take limit

/-- An HTTP error as raised by the `except Exception` handlers
(`HTTPException(status_code=500, detail=str(e))`). -/
structure HttpError where
  status_code : ℕ
  detail : String
deriving Repr, DecidableEq

/-- The `AnalysisResponse` schema: optional raw per-modality results plus the
fused decision, risk score, explanation and session id. -/
structure AnalysisResponse where
  text_result : Option TextResult
  logo_result : Option LogoResult
  url_result : Option UrlResult
  final_decision : String
  risk_score : ℚ
  explanation : String
  session_id : String
deriving Repr, DecidableEq

/-- The `ChatResponse` schema. -/
structure ChatResponse where
  message : String
  analysis : AnalysisResponse
  session_id : String
deriving Repr, DecidableEq

/-- The `ChatHistoryResponse` schema: returned turns and the `total` field. -/
structure ChatHistoryResponse where
  history : List ChatTurn
  total : ℕ
deriving Repr, DecidableEq

/-- Python truthiness of an optional string (`if text:`): present and
non-empty. -/
def strTruthy : Option String → Bool
  | none => false
  | some s => s != ""

/-- Python rendering of an optional string inside an f-string
(`None` prints as the word None). -/
def pyOptStr : Option String → String
  | none => "None"
  | some s => s

/-- Embedding of `f"{risk_score:.0%}"`: multiply by 100, round to an integer
and append a percent sign (rounding mode approximated as round-half-up). -/
def pctFormat (q : ℚ) : String :=
  toString (round (q * 100) : ℤ) ++ "%"

/-- One step of the endpoint write sequence under Python exception
semantics: once an operation has failed, later operations do not run, but
stores committed by earlier operations persist. -/
def runWrite (acc : Store × Option RepoError) (cond : Bool)
    (op : Store → Except RepoError Store) : Store × Option RepoError :=
  match acc with
  | (st, some e) => (st, some e)
  | (st, none) =>
    if cond then
      match op st with
      | .ok st' => (st', none)
      | .error e => (st, some e)
    else (st, none)

/-- Run a list of conditional store writes in order, stopping at the first
failure. -/
def runWrites (st : Store) (ops : List (Bool × (Store → Except RepoError Store))) :
    Store × Option RepoError :=
  ops.foldl (fun acc p => runWrite acc p.1 p.2) (st, none)

/-- Endpoint `POST /analyze/text` (main.py lines 106-148): ensure the session, run the
workflow on the text, save the scan, save a PhishingAttempt tagged "text" when
`is_fraud` is truthy, and return the analysis response; any repository error
becomes an HTTP 500. -/
def analyze_text (sid text : String) (ad : Adapters) (st : Store) :
    Except HttpError AnalysisResponse × Store :=
  match create_or_update_session sid st with
  | .error e => (.error ⟨500, e.msg⟩, st)
  | .ok st1 =>
    let rf := analyze_sync ad (some text) none none
    let rs := rf.1
    let fu := rf.2
    let fraud := match rs.text_result with
      | some r => optTruthy r.is_fraud
      | none => false
    let reason := (rs.text_result.bind (·.reason)).getD "Fraudulent text detected"
    let conf := (rs.text_result.bind (·.confidence)).getD 0
    match runWrites st1
      [(rs.text_result.isSome, save_text_scan sid text),
       (fraud, save_phishing_attempt sid "text" text reason conf)] with
    | (st', none) =>
      (.ok ⟨rs.text_result, none, none, fu.decision, fu.risk_score, fu.explanation, sid⟩, st')
    | (st', some e) => (.error ⟨500, e.msg⟩, st')

/-- Endpoint `POST /analyze/logo` (main.py lines 150-197): like `analyze_text` but on
an uploaded image, keyed by `is_suspicious`, attempt tagged "logo". -/
def analyze_logo (fname sid : String) (ad : Adapters) (st : Store) :
    Except HttpError AnalysisResponse × Store :=
  match create_or_update_session sid st with
  | .error e => (.error ⟨500, e.msg⟩, st)
  | .ok st1 =>
    let rf := analyze_sync ad none none (some fname)
    let rs := rf.1
    let fu := rf.2
    let susp := match rs.logo_result with
      | some r => optTruthy r.is_suspicious
      | none => false
    let reason := (rs.logo_result.bind (·.reason)).getD "Suspicious logo detected"
    let conf := (rs.logo_result.bind (·.confidence)).getD 0
    match runWrites st1
      [(rs.logo_result.isSome, save_logo_scan sid fname),
       (susp, save_phishing_attempt sid "logo" fname reason conf)] with
    | (st', none) =>
      (.ok ⟨none, rs.logo_result, none, fu.decision, fu.risk_score, fu.explanation, sid⟩, st')
    | (st', some e) => (.error ⟨500, e.msg⟩, st')

/-- Endpoint `POST /analyze/url` (main.py lines 199-241): attempt tagged "url" is saved
when the `safe` key of the url result is not truthy, with defaults
"Malicious URL detected" and confidence 0.0 for missing keys. -/
def analyze_url (sid url : String) (ad : Adapters) (st : Store) :
    Except HttpError AnalysisResponse × Store :=
  match create_or_update_session sid st with
  | .error e => (.error ⟨500, e.msg⟩, st)
  | .ok st1 =>
    let rf := analyze_sync ad none (some url) none
    let rs := rf.1
    let fu := rf.2
    let flaggedUrl := match rs.url_result with
      | some r => !optTruthy r.safe
      | none => false
    let reason := (rs.url_result.bind (·.reason)).getD "Malicious URL detected"
    let conf := (rs.url_result.bind (·.confidence)).getD 0
    match runWrites st1
      [(rs.url_result.isSome, save_url_scan sid url),
       (flaggedUrl, save_phishing_attempt sid "url" url reason conf)] with
    | (st', none) =>
      (.ok ⟨none, none, rs.url_result, fu.decision, fu.risk_score, fu.explanation, sid⟩, st')
    | (st', some e) => (.error ⟨500, e.msg⟩, st')

/-- The content summary string of the combined PhishingAttempt
(main.py line 282). -/
def allContent (text url file : Option String) : String :=
  "Text: " ++ pyOptStr text ++ ", URL: " ++ pyOptStr url ++ ", Image: " ++ pyOptStr file

/-- Endpoint `POST /analyze/all` (main.py lines 243-302): analyze any combination of
text, url and image; save a scan per present result with truthy input; save
one PhishingAttempt tagged "combined" exactly when the fused decision is
suspicious or dangerous. -/
def analyze_all (text url file : Option String) (sid : String) (ad : Adapters)
    (st : Store) : Except HttpError AnalysisResponse × Store :=
  match create_or_update_session sid st with
  | .error e => (.error ⟨500, e.msg⟩, st)
  | .ok st1 =>
    let rf := analyze_sync ad text url file
    let rs := rf.1
    let fu := rf.2
    match runWrites st1
      [(rs.logo_result.isSome && file.isSome, save_logo_scan sid (file.getD "")),
       (rs.text_result.isSome && strTruthy text, save_text_scan sid (text.getD "")),
       (rs.url_result.isSome && strTruthy url, save_url_scan sid (url.getD "")),
       (fu.decision = "suspicious" || fu.decision = "dangerous",
         save_phishing_attempt sid "combined" (allContent text url file)
           fu.explanation fu.risk_score)] with
    | (st', none) =>
      (.ok ⟨rs.text_result, rs.logo_result, rs.url_result, fu.decision, fu.risk_score,
        fu.explanation, sid⟩, st')
    | (st', some e) => (.error ⟨500, e.msg⟩, st')

/-- The three chat prose templates and the composed bot message
(main.py lines 339-346): safe and suspicious have their own prose, every
other decision falls into the `else` branch, and the risk score is appended
as a percentage. -/
def composeBotMessage (decision explanation : String) (risk : ℚ) : String :=
  (if decision = "safe" then
    "✅ Everything looks good! Your message appears to be safe.\n\n" ++ explanation
  else if decision = "suspicious" then
    "⚠️ I\x27ve detected some concerning indicators. Please be cautious.\n\n" ++ explanation
  else
    "🚨 Warning! This appears to be a phishing or fraud attempt. Do not proceed!\n\n"
      ++ explanation)
  ++ "\n\nRisk Score: " ++ pctFormat risk

/-- Endpoint `POST /chat` (main.py lines 304-376): analyze message plus optional url
and image, compose the templated bot message, record the chat turn, then save
per-modality scans, and return the conversational response. -/
def chat (message : String) (url file : Option String) (sid : String)
    (ad : Adapters) (st : Store) : Except HttpError ChatResponse × Store :=
  match create_or_update_session sid st with
  | .error e => (.error ⟨500, e.msg⟩, st)
  | .ok st1 =>
    let rf := analyze_sync ad (some message) url file
    let rs := rf.1
    let fu := rf.2
    let bot_message := composeBotMessage fu.decision fu.explanation fu.risk_score
    match runWrites st1
      [(true, save_message sid message bot_message),
       (rs.logo_result.isSome && file.isSome, save_logo_scan sid (file.getD "")),
       (rs.text_result.isSome, save_text_scan sid message),
       (rs.url_result.isSome && strTruthy url, save_url_scan sid (url.getD ""))] with
    | (st', none) =>
      (.ok ⟨bot_message,
        ⟨rs.text_result, rs.logo_result, rs.url_result, fu.decision, fu.risk_score,
          fu.explanation, sid⟩, sid⟩, st')
    | (st', some e) => (.error ⟨500, e.msg⟩, st')

/-- Endpoint `GET /chat/history` (main.py lines 378-403): query up to `limit` turns and
return them with `total = len(history)`. -/
def get_chat_history (sid : Option String) (limit : ℕ) (st : Store) :
    ChatHistoryResponse :=
  let h := repo_get_chat_history sid limit st
  ⟨h, h.length⟩

/-- The `HealthResponse` schema. -/
structure HealthResponse where
  status : String
  logo_agent : Bool
  text_agent : Bool
  url_agent : Bool
  database_connected : Bool
deriving Repr, DecidableEq

/-- Endpoint `GET /health` (main.py lines 77-104): healthy when all three models are
loaded and the database answers, degraded_fallback when only the database
answers, degraded otherwise. -/
def health_check (logoLoaded textLoaded urlLoaded dbConnected : Bool) :
    HealthResponse :=
  let status :=
    if (logoLoaded && textLoaded && urlLoaded) && dbConnected then "healthy"
    else if dbConnected then "degraded_fallback"
    else "degraded"
  ⟨status, logoLoaded, textLoaded, urlLoaded, dbConnected⟩

/-! ## Shared concrete fixtures -/

/-- An empty store with the persistence layer reachable. -/
def emptyStore : Store := ⟨[], [], [], [], true⟩

/-- An empty store with the persistence layer unreachable. -/
def downStore : Store := ⟨[], [], [], [], false⟩

/-- An adapter set where every classifier is unavailable. -/
def noAdapters : Adapters := ⟨fun _ => none, fun _ => none, fun _ => none⟩

/-- Scenario B fusion input: text triggered at confidence 0.4, url triggered
at confidence 0.5, logo absent. -/
def scenarioB : FusionInput :=
  ⟨some ⟨true, 2/5, "t"⟩, none, some ⟨true, 1/2, "u"⟩⟩

/-- Scenario A adapters: only the text classifier answers, with
`is_fraud = true` and confidence 0.9. -/
def adScenarioA : Adapters :=
  ⟨fun _ => some ⟨some true, some (9/10), some "fraud reason"⟩,
   fun _ => none, fun _ => none⟩

/-- Adapters where the text classifier flags fraud with low confidence 0.1,
sending the fused decision to safe while still recording an attempt. -/
def adLowFraud : Adapters :=
  ⟨fun _ => some ⟨some true, some (1/10), some "weak signal"⟩,
   fun _ => none, fun _ => none⟩

/-- The store state after `ensure_session` succeeds on a non-empty id. -/
def ensured (id : String) (st : Store) : Store :=
  { st with sessions := if id ∈ st.sessions then st.sessions else id :: st.sessions }

/-! ## Claims -/

/-- C7: the health status is healthy iff all three models are loaded and the
store is reachable, degraded_fallback iff the store is reachable and some
model is not loaded, and degraded iff the store is unreachable. -/
theorem C7_health_status (logoL textL urlL dbC : Bool) :
    ((health_check logoL textL urlL dbC).status = "healthy" ↔
      (logoL && textL && urlL) = true ∧ dbC = true)
    ∧ ((health_check logoL textL urlL dbC).status = "degraded_fallback" ↔
      dbC = true ∧ (logoL && textL && urlL) = false)
    ∧ ((health_check logoL textL urlL dbC).status = "degraded" ↔ dbC = false) := by
  cases logoL <;> cases textL <;> cases urlL <;> cases dbC <;>
    refine ⟨⟨fun h => ?_, fun h => ?_⟩, ⟨fun h => ?_, fun h => ?_⟩, fun h => ?_, fun h => ?_⟩ <;>
    revert h <;> decide

/-- C6: `get_chat_history` reports `total` as the number of turns actually
returned, which is the minimum of `limit` and the number of matching turns in
the store, never the store-wide total. -/
theorem C6_history_count (sid : Option String) (limit : ℕ) (st : Store) :
    (get_chat_history sid limit st).total = (get_chat_history sid limit st).history.length
    ∧ (get_chat_history sid limit st).history.length =
      min limit (match sid with
        | none => st.chats
        | some s => st.chats.filter (·.session_id = s)).length := by
  refine ⟨rfl, ?_⟩
  cases sid <;> simp [get_chat_history, repo_get_chat_history]

/-- C9: `ensure_session` on an empty id fails with `InvalidIdentity`, and any
call reaching the store with an empty session id is rejected with no side
effect on the store; on a non-empty id `ensure_session` never errors. -/
theorem C9_ensure_session (id : String) (st : Store) :
    (id = "" →
      create_or_update_session id st = .error .invalidIdentity
      ∧ ∀ text ad, (analyze_text id text ad st).2 = st
        ∧ (analyze_text id text ad st).1 = .error ⟨500, "InvalidIdentity"⟩)
    ∧ (id ≠ "" → ∃ st', create_or_update_session id st = .ok st') := by
  constructor
  · intro h
    subst h
    refine ⟨rfl, fun text ad => ?_⟩
    simp [analyze_text, create_or_update_session, RepoError.msg]
  · intro h
    unfold create_or_update_session
    rw [if_neg h]
    exact ⟨_, rfl⟩

/-- Witness for C9 at concrete inputs: the empty id is rejected, the id "s"
succeeds. -/
theorem C9_witness :
    create_or_update_session "" emptyStore = .error .invalidIdentity
    ∧ (analyze_text "" "hello" noAdapters emptyStore).2 = emptyStore
    ∧ ∃ st', create_or_update_session "s" emptyStore = .ok st' :=
  ⟨((C9_ensure_session "" emptyStore).1 rfl).1,
   (((C9_ensure_session "" emptyStore).1 rfl).2 "hello" noAdapters).1,
   (C9_ensure_session "s" emptyStore).2 (by decide)⟩

/-- The function `decisionOf` matches the three threshold intervals exactly. -/
theorem decisionOf_spec (r : ℚ) :
    (decisionOf r = "safe" ↔ r < 3/10)
    ∧ (decisionOf r = "suspicious" ↔ 3/10 ≤ r ∧ r < 7/10)
    ∧ (decisionOf r = "dangerous" ↔ 7/10 ≤ r) := by
  unfold decisionOf
  rcases lt_or_le r (3/10) with h1 | h1
  · rw [if_pos h1]
    exact ⟨iff_of_true rfl h1,
      iff_of_false (by decide) (fun hc => absurd h1 (not_lt.2 hc.1)),
      iff_of_false (by decide)
        (fun hc => absurd h1 (not_lt.2 (le_trans (by norm_num) hc)))⟩
  · rw [if_neg (not_lt.2 h1)]
    rcases lt_or_le r (7/10) with h2 | h2
    · rw [if_pos h2]
      exact ⟨iff_of_false (by decide) (fun hc => absurd hc (not_lt.2 h1)),
        iff_of_true rfl ⟨h1, h2⟩,
        iff_of_false (by decide) (fun hc => absurd h2 (not_lt.2 hc))⟩
    · rw [if_neg (not_lt.2 h2)]
      exact ⟨iff_of_false (by decide)
          (fun hc => absurd hc (not_lt.2 (le_trans (by norm_num) h2))),
        iff_of_false (by decide) (fun hc => absurd hc.2 (not_lt.2 h2)),
        iff_of_true rfl h2⟩

/-- On a non-empty mapping, `fuse` is the noisy-OR risk with thresholded
decision. -/
theorem fuse_nonempty (inp : FusionInput) (h : inp.toList ≠ []) :
    fuse inp = ⟨riskOf inp.toList, decisionOf (riskOf inp.toList),
      explanationOf inp.toList⟩ := by
  unfold fuse
  rw [if_neg]
  simp [List.isEmpty_iff, h]

/-- C1: for a non-empty set of modality results with in-range confidences, the
risk score is the noisy-OR `1 - prod (1 - c_i)` with `c_i = confidence_i` when
triggered and `0` otherwise, and the decision matches the fixed thresholds
0.3 and 0.7 exactly. -/
theorem C1_noisy_or_fusion (inp : FusionInput)
    (hne : inp.toList ≠ [])
    (hbound : ∀ m ∈ inp.toList, 0 ≤ m.confidence ∧ m.confidence ≤ 1) :
    (fuse inp).risk_score =
      1 - (inp.toList.map (fun m => 1 - (if m.triggered then m.confidence else 0))).prod
    ∧ ((fuse inp).decision = "safe" ↔ (fuse inp).risk_score < 3/10)
    ∧ ((fuse inp).decision = "suspicious" ↔
        3/10 ≤ (fuse inp).risk_score ∧ (fuse inp).risk_score < 7/10)
    ∧ ((fuse inp).decision = "dangerous" ↔ 7/10 ≤ (fuse inp).risk_score) := by
  rw [fuse_nonempty inp hne]
  have hr : riskOf inp.toList =
      1 - (inp.toList.map (fun m => 1 - (if m.triggered then m.confidence else 0))).prod := by
    unfold riskOf
    congr 1
    apply congrArg
    apply List.map_congr_left
    intro m hm
    have hb := hbound m hm
    unfold contribution clamp01
    split
    · rw [min_eq_right hb.2, max_eq_right hb.1]
    · rfl
  exact ⟨hr, decisionOf_spec (riskOf inp.toList)⟩

/-- Witness for C1 at Scenario B: risk 0.7 and decision dangerous. -/
theorem C1_witness :
    (fuse scenarioB).risk_score = 7/10 ∧ (fuse scenarioB).decision = "dangerous" := by
  have h := C1_noisy_or_fusion scenarioB
    (by simp [scenarioB, FusionInput.toList])
    (by
      intro m hm
      simp [scenarioB, FusionInput.toList] at hm
      rcases hm with h | h <;> subst h <;> norm_num)
  have hrisk : (fuse scenarioB).risk_score = 7/10 := by
    rw [h.1]
    simp [scenarioB, FusionInput.toList]
    norm_num
  exact ⟨hrisk, (h.2.2.2).2 (le_of_eq hrisk.symm)⟩

/-- C2 (amended): for each single-modality endpoint, the PhishingAttempt
tagged with that modality is recorded exactly when the raw result of that modality
is present and its native flag indicates risk (`is_fraud` truthy for text,
`is_suspicious` truthy for logo, `safe` not truthy for url) — the fused
decision plays no role. -/
theorem C2_single_modality_attempts (sid text fname url : String)
    (ad : Adapters) (st : Store) (hsid : sid ≠ "") (hup : st.storageUp = true) :
    (analyze_text sid text ad st).2.attempts =
      (match ad.textA text with
        | some r =>
          if optTruthy r.is_fraud then
            [⟨sid, "text", text, r.reason.getD "Fraudulent text detected",
              r.confidence.getD 0⟩]
          else []
        | none => []) ++ st.attempts
    ∧ (analyze_logo fname sid ad st).2.attempts =
      (match ad.logoA fname with
        | some r =>
          if optTruthy r.is_suspicious then
            [⟨sid, "logo", fname, r.reason.getD "Suspicious logo detected",
              r.confidence.getD 0⟩]
          else []
        | none => []) ++ st.attempts
    ∧ (analyze_url sid url ad st).2.attempts =
      (match ad.urlA url with
        | some r =>
          if !optTruthy r.safe then
            [⟨sid, "url", url, r.reason.getD "Malicious URL detected",
              r.confidence.getD 0⟩]
          else []
        | none => []) ++ st.attempts := by
  refine ⟨?_, ?_, ?_⟩
  · cases hr : ad.textA text with
    | none =>
      simp [analyze_text, analyze_sync, dispatch, create_or_update_session, hsid,
        hr, runWrites, runWrite, hup]
    | some r =>
      by_cases hf : optTruthy r.is_fraud = true <;>
        simp [analyze_text, analyze_sync, dispatch, create_or_update_session, hsid,
          hr, hf, runWrites, runWrite, save_text_scan, save_phishing_attempt, hup]
  · cases hr : ad.logoA fname with
    | none =>
      simp [analyze_logo, analyze_sync, dispatch, create_or_update_session, hsid,
        hr, runWrites, runWrite, hup]
    | some r =>
      by_cases hf : optTruthy r.is_suspicious = true <;>
        simp [analyze_logo, analyze_sync, dispatch, create_or_update_session, hsid,
          hr, hf, runWrites, runWrite, save_logo_scan, save_phishing_attempt, hup]
  · cases hr : ad.urlA url with
    | none =>
      simp [analyze_url, analyze_sync, dispatch, create_or_update_session, hsid,
        hr, runWrites, runWrite, hup]
    | some r =>
      by_cases hf : optTruthy r.safe = true <;>
        simp [analyze_url, analyze_sync, dispatch, create_or_update_session, hsid,
          hr, hf, runWrites, runWrite, save_url_scan, save_phishing_attempt, hup]

/-- Witness for C2 at Scenario A: exactly one PhishingAttempt, tagged "text",
is recorded. -/
theorem C2_witness :
    (analyze_text "s" "msg" adScenarioA emptyStore).2.attempts =
      [⟨"s", "text", "msg", "fraud reason", 9/10⟩] := by
  have h := (C2_single_modality_attempts "s" "msg" "f" "u" adScenarioA emptyStore
    (by decide) rfl).1
  rw [h]
  simp [adScenarioA, optTruthy, emptyStore]

/-- Counterexample to C2 as stated: on a text-only call whose classifier flags
fraud at confidence 0.1, the fused decision is safe (risk 0.1 is below the
0.3 threshold) yet a PhishingAttempt tagged "text" is still recorded — the
recording is keyed on the raw `is_fraud` flag, not on the fused decision. -/
theorem C2_counterexample :
    (analyze_text "s" "hi" adLowFraud emptyStore).1.toOption.map
      AnalysisResponse.final_decision = some "safe"
    ∧ (analyze_text "s" "hi" adLowFraud emptyStore).2.attempts.length = 1 := by
  constructor
  · simp [analyze_text, analyze_sync, dispatch, adLowFraud, emptyStore,
      create_or_update_session, runWrites, runWrite, save_text_scan,
      save_phishing_attempt, fuse, FusionInput.toList, Results.toFusion, optTruthy]
    refine ⟨_, rfl, ?_⟩
    dsimp only
    unfold decisionOf riskOf contribution clamp01 TextResult.toModality optTruthy
    norm_num [Option.getD, min_def, max_def]
  · simp [analyze_text, analyze_sync, dispatch, adLowFraud, emptyStore,
      create_or_update_session, runWrites, runWrite, save_text_scan,
      save_phishing_attempt, optTruthy]

/-- Projection facts about the ensured store. -/
@[simp] theorem ensured_attempts (id : String) (st : Store) :
    (ensured id st).attempts = st.attempts := rfl

@[simp] theorem ensured_scans (id : String) (st : Store) :
    (ensured id st).scans = st.scans := rfl

@[simp] theorem ensured_chats (id : String) (st : Store) :
    (ensured id st).chats = st.chats := rfl

@[simp] theorem ensured_storageUp (id : String) (st : Store) :
    (ensured id st).storageUp = st.storageUp := rfl

/-- On a non-empty id, `ensure_session` succeeds and returns the ensured
store. -/
theorem ensure_ok (id : String) (st : Store) (h : id ≠ "") :
    create_or_update_session id st = .ok (ensured id st) := by
  unfold create_or_update_session ensured
  rw [if_neg h]

/-- C3 (as stated): `analyze/all` records exactly one PhishingAttempt, tagged
"combined", iff the fused decision is suspicious or dangerous, and no other
attempt record. -/
theorem C3_combined_attempt (text url file : Option String) (sid : String)
    (ad : Adapters) (st : Store) (hsid : sid ≠ "") (hup : st.storageUp = true) :
    (analyze_all text url file sid ad st).2.attempts =
      (if ((analyze_sync ad text url file).2.decision = "suspicious"
          || (analyze_sync ad text url file).2.decision = "dangerous" : Bool) then
        [⟨sid, "combined", allContent text url file,
          (analyze_sync ad text url file).2.explanation,
          (analyze_sync ad text url file).2.risk_score⟩]
      else []) ++ st.attempts := by
  unfold analyze_all
  rw [ensure_ok sid st hsid]
  dsimp only
  cases h1 : (analyze_sync ad text url file).1.logo_result.isSome && file.isSome <;>
    cases h2 : (analyze_sync ad text url file).1.text_result.isSome && strTruthy text <;>
      cases h3 : (analyze_sync ad text url file).1.url_result.isSome && strTruthy url <;>
        cases h4 : ((analyze_sync ad text url file).2.decision = "suspicious"
            || (analyze_sync ad text url file).2.decision = "dangerous" : Bool) <;>
          simp [runWrites, runWrite, save_logo_scan, save_text_scan, save_url_scan,
            save_phishing_attempt, h1, h2, h3, h4, hup]

/-- Witness for C3: a dangerous text-only `analyze/all` call records exactly
one attempt, tagged "combined". -/
theorem C3_witness :
    (analyze_all (some "msg") none none "s" adScenarioA emptyStore).2.attempts =
      [⟨"s", "combined", "Text: msg, URL: None, Image: None",
        "fraud reason", 9/10⟩] := by
  have hr : riskOf [TextResult.toModality ⟨some true, some (9/10), some "fraud reason"⟩]
      = 9/10 := by
    unfold riskOf contribution clamp01 TextResult.toModality optTruthy
    norm_num
  have hexp : explanationOf
      [TextResult.toModality ⟨some true, some (9/10), some "fraud reason"⟩]
      = "fraud reason" := by
    simp [explanationOf, TextResult.toModality, optTruthy]
    rfl
  have hdec : decisionOf (9/10 : ℚ) = "dangerous" := by
    unfold decisionOf
    norm_num
  have hd : (analyze_sync adScenarioA (some "msg") none none).2 =
      ⟨9/10, "dangerous", "fraud reason"⟩ := by
    simp [analyze_sync, dispatch, adScenarioA, fuse, Results.toFusion,
      FusionInput.toList, hr, hexp, hdec]
  have h := C3_combined_attempt (some "msg") none none "s" adScenarioA emptyStore
    (by decide) rfl
  rw [h, hd]
  simp [emptyStore, allContent, pyOptStr]

/-- C8: an `analyze/all` call with no inputs returns risk 0, decision unknown
and the fixed explanation, writes no ScanRecord, PhishingAttempt or ChatTurn,
and only ensures the session. -/
theorem C8_empty_analyze (sid : String) (ad : Adapters) (st : Store)
    (hsid : sid ≠ "") :
    (analyze_all none none none sid ad st).1.toOption.map
      (fun r => (r.risk_score, r.final_decision, r.explanation)) =
      some (0, "unknown", "No input provided for analysis.")
    ∧ (analyze_all none none none sid ad st).2.scans = st.scans
    ∧ (analyze_all none none none sid ad st).2.attempts = st.attempts
    ∧ (analyze_all none none none sid ad st).2.chats = st.chats
    ∧ (analyze_all none none none sid ad st).2.sessions = (ensured sid st).sessions := by
  have hfu : (analyze_sync ad none none none).2 =
      ⟨0, "unknown", "No input provided for analysis."⟩ := by
    simp [analyze_sync, dispatch, fuse, Results.toFusion, FusionInput.toList]
  unfold analyze_all
  rw [ensure_ok sid st hsid]
  dsimp only
  rw [hfu]
  simp [analyze_sync, dispatch, runWrites, runWrite, Except.toOption]

/-- Witness for C8 at a concrete empty request. -/
theorem C8_witness :
    (analyze_all none none none "s" noAdapters emptyStore).1.toOption.map
      (fun r => (r.risk_score, r.final_decision, r.explanation)) =
      some (0, "unknown", "No input provided for analysis.")
    ∧ (analyze_all none none none "s" noAdapters emptyStore).2.scans = []
    ∧ (analyze_all none none none "s" noAdapters emptyStore).2.attempts = []
    ∧ (analyze_all none none none "s" noAdapters emptyStore).2.chats = [] := by
  have h := C8_empty_analyze "s" noAdapters emptyStore (by decide)
  exact ⟨h.1, h.2.1, h.2.2.1, h.2.2.2.1⟩

/-- C10: when the url result lacks a truthy `safe` key (including a missing
key), `analyze/url` records a PhishingAttempt tagged "url", with the defaults
"Malicious URL detected" and confidence 0 for missing `reason`/`confidence`
keys. -/
theorem C10_url_attempt_defaults (sid url : String) (ad : Adapters) (st : Store)
    (r : UrlResult) (hsid : sid ≠ "") (hup : st.storageUp = true)
    (hr : ad.urlA url = some r) (hsafe : r.safe ≠ some true) :
    (analyze_url sid url ad st).2.attempts =
      ⟨sid, "url", url, r.reason.getD "Malicious URL detected",
        r.confidence.getD 0⟩ :: st.attempts := by
  have hflag : optTruthy r.safe = false := by
    simp [optTruthy, hsafe]
  unfold analyze_url
  rw [ensure_ok sid st hsid]
  dsimp only
  simp [analyze_sync, dispatch, hr, hflag, runWrites, runWrite, save_url_scan,
    save_phishing_attempt, hup]

/-- Adapters whose url classifier returns an empty result dictionary: no
`safe`, `reason` or `confidence` keys. -/
def adEmptyUrl : Adapters :=
  ⟨fun _ => none, fun _ => none, fun _ => some ⟨none, none, none⟩⟩

/-- Witness for C10: with every key missing from the url result, the recorded
attempt carries the default reason and confidence 0. -/
theorem C10_witness :
    (analyze_url "s" "http://x" adEmptyUrl emptyStore).2.attempts =
      [⟨"s", "url", "http://x", "Malicious URL detected", 0⟩] :=
  C10_url_attempt_defaults "s" "http://x" adEmptyUrl emptyStore ⟨none, none, none⟩
    (by decide) rfl rfl (by simp)

/-- C5 (amended): when the persistence layer is unreachable during an analyze
call that attempts a write, the whole request fails with HTTP 500 carrying the
`StorageUnavailable` detail — the computed analysis result is not returned. -/
theorem C5_storage_failure (sid text : String) (ad : Adapters) (st : Store)
    (hsid : sid ≠ "") (hdown : st.storageUp = false)
    (hres : (ad.textA text).isSome = true) :
    (analyze_text sid text ad st).1 = .error ⟨500, "StorageUnavailable"⟩ := by
  obtain ⟨r, hr⟩ := Option.isSome_iff_exists.1 hres
  unfold analyze_text
  rw [ensure_ok sid st hsid]
  dsimp only
  simp [analyze_sync, dispatch, hr, runWrites, runWrite, save_text_scan,
    hdown, RepoError.msg]

/-- Witness for C5 (amended) at a concrete input. -/
theorem C5_witness :
    (analyze_text "s" "some text" adScenarioA downStore).1 =
      .error ⟨500, "StorageUnavailable"⟩ :=
  C5_storage_failure "s" "some text" adScenarioA downStore (by decide) rfl rfl

/-- Counterexample to C5 as stated: with the persistence layer down, the
analyze call returns no analysis result at all — the computed decision is
discarded and the caller sees only an HTTP 500. -/
theorem C5_counterexample :
    (analyze_text "s" "hello" adScenarioA downStore).1.toOption = none := by
  unfold analyze_text
  rw [ensure_ok "s" downStore (by decide)]
  dsimp only
  simp [analyze_sync, dispatch, adScenarioA, runWrites, runWrite, save_text_scan,
    downStore, Except.toOption]

/-- C4 (amended): the chat bot response is the templated message composed from
the fused decision — distinct prose for safe and for suspicious, one shared
warning prose for every other decision value (dangerous and unknown alike) —
with the risk score appended as a percentage, and the recorded ChatTurn holds
exactly that composed response. -/
theorem C4_chat_response (message : String) (url file : Option String)
    (sid : String) (ad : Adapters) (st : Store)
    (hsid : sid ≠ "") (hup : st.storageUp = true) :
    (chat message url file sid ad st).1.toOption.map ChatResponse.message =
      some (composeBotMessage (analyze_sync ad (some message) url file).2.decision
        (analyze_sync ad (some message) url file).2.explanation
        (analyze_sync ad (some message) url file).2.risk_score)
    ∧ (chat message url file sid ad st).2.chats =
      ⟨sid, message,
        composeBotMessage (analyze_sync ad (some message) url file).2.decision
          (analyze_sync ad (some message) url file).2.explanation
          (analyze_sync ad (some message) url file).2.risk_score⟩ :: st.chats
    ∧ ∀ d e r, d ≠ "safe" → d ≠ "suspicious" →
        composeBotMessage d e r = composeBotMessage "dangerous" e r := by
  refine ⟨?_, ?_, ?_⟩
  · unfold chat
    rw [ensure_ok sid st hsid]
    dsimp only
    cases h2 : (analyze_sync ad (some message) url file).1.logo_result.isSome
        && file.isSome <;>
      cases h3 : (analyze_sync ad (some message) url file).1.text_result.isSome <;>
        cases h4 : (analyze_sync ad (some message) url file).1.url_result.isSome
            && strTruthy url <;>
          simp [runWrites, runWrite, save_message, save_logo_scan, save_text_scan,
            save_url_scan, h2, h3, h4, hup, Except.toOption]
  · unfold chat
    rw [ensure_ok sid st hsid]
    dsimp only
    cases h2 : (analyze_sync ad (some message) url file).1.logo_result.isSome
        && file.isSome <;>
      cases h3 : (analyze_sync ad (some message) url file).1.text_result.isSome <;>
        cases h4 : (analyze_sync ad (some message) url file).1.url_result.isSome
            && strTruthy url <;>
          simp [runWrites, runWrite, save_message, save_logo_scan, save_text_scan,
            save_url_scan, h2, h3, h4, hup]
  · intro d e r hd hs
    unfold composeBotMessage
    rw [if_neg hd, if_neg hs, if_neg (by decide : ¬("dangerous" = "safe")),
      if_neg (by decide : ¬("dangerous" = "suspicious"))]

/-- Witness for C4: on a concrete chat call whose fused decision is unknown,
the recorded turn carries the composed message, and the unknown template
coincides with the dangerous one. -/
theorem C4_witness :
    (chat "hi" none none "s" noAdapters emptyStore).2.chats =
      [⟨"s", "hi", composeBotMessage "unknown" "No input provided for analysis." 0⟩]
    ∧ composeBotMessage "unknown" "No input provided for analysis." 0 =
      composeBotMessage "dangerous" "No input provided for analysis." 0 := by
  have h := C4_chat_response "hi" none none "s" noAdapters emptyStore (by decide) rfl
  have hfu : (analyze_sync noAdapters (some "hi") none none).2 =
      ⟨0, "unknown", "No input provided for analysis."⟩ := by
    simp [analyze_sync, dispatch, noAdapters, fuse, Results.toFusion,
      FusionInput.toList]
  constructor
  · have h2 := h.2.1
    rw [hfu] at h2
    simpa [emptyStore] using h2
  · exact h.2.2 "unknown" "No input provided for analysis." 0 (by decide) (by decide)

/-- Counterexample to C4 as stated: the decision value unknown has no template
of its own — a chat call whose fused decision is unknown falls into the
`else` branch and receives the dangerous-decision warning prose. -/
theorem C4_counterexample :
    (chat "hi" none none "s" noAdapters emptyStore).1.toOption.map
      (fun r => (r.analysis.final_decision, r.message)) =
      some ("unknown",
        "🚨 Warning! This appears to be a phishing or fraud attempt. Do not proceed!\n\nNo input provided for analysis.\n\nRisk Score: 0%") := by
  have hpct : pctFormat 0 = "0%" := by
    unfold pctFormat
    norm_num
    rfl
  unfold chat
  rw [ensure_ok "s" emptyStore (by decide)]
  dsimp only
  simp [analyze_sync, dispatch, noAdapters, fuse, Results.toFusion,
    FusionInput.toList, runWrites, runWrite, save_message, emptyStore,
    Except.toOption, composeBotMessage, hpct]
